import Mathlib

/-!
Formal model of the EAA stochastic weather generator (wattrib_wg_frio).

The Python source is shallowly embedded: module-level mutable state becomes
explicit state structures, random draws become explicit oracle streams
(a function from draw index to the sampled value), and float arithmetic is
modelled over the rationals.  The definitions follow the source modules:

* EAAWG_PrecipDepth.py   — Gamma2PCont, PrecipSampler, WD_THRESH
* EAAWG_SpellLength.py   — NegBinomial
* EAAWG_Events.py        — ExtremeEvent, updateTriggeredEvent
* EAAWG_OtherWeather.py  — setupDistsSamples, updateTracker, calcCHI0,
                           calculateUpdate, rollOverChis
* EAAWG_Dists_Samples.py — sampleAll, setTrackers
* EAAWG_HighRealResults.py — assignDryDep, assignWetDep, assignTemp
* EAAWGmp.py             — WG_Worker_Main daily loop
* EAAWG_Inputs.py        — MON_MAX_PP and other constants
-/

namespace EAAWG

/-- WGI.WET_STATE / WGI.DRY_STATE from EAAWG_Inputs.py (the source uses the
strings "wet" and "dry"). -/
inductive WeatherState where
  | wet : WeatherState
  | dry : WeatherState
deriving DecidableEq, Repr

/-- The state toggle performed by the daily loop in WG_Worker_Main. -/
def WeatherState.other : WeatherState → WeatherState
  | .wet => .dry
  | .dry => .wet

/-- WD_THRESH from EAAWG_PrecipDepth.py: wet/dry threshold of 0.255 mm. -/
def WD_THRESH : ℚ := 255/1000

/-- MON_MAX_PP from EAAWG_Inputs.py: maximum daily precipitation depth by
calendar month (index 0 = January). -/
def MON_MAX_PP : Fin 12 → ℚ
  | 0 => 47/2
  | 1 => 229/10
  | 2 => 167/5
  | 3 => 156/5
  | 4 => 198/5
  | 5 => 363/10
  | 6 => 193/5
  | 7 => 35
  | 8 => 461/10
  | 9 => 461/10
  | 10 => 357/10
  | 11 => 243/10

/-- Gamma2PCont from EAAWG_PrecipDepth.py.  The scipy gengamma parameters of
the constructed distribution object.  (The scipy sampling itself is an
external stochastic source; draws from it enter the model as explicit raw
sample values.) -/
structure Gamma2PCont where
  a : ℚ
  c : ℚ
  loc : ℚ
  scale : ℚ
deriving DecidableEq, Repr

/-- Gamma2PCont.__init__ from EAAWG_PrecipDepth.py.  The isinstance float
checks are subsumed by the ℚ typing; the value checks are exactly those of
the source: `a <= 0.0` and `c == 0.0` raise CreateDistError.  No check is
made on loc or scale. -/
def Gamma2PCont.init (a c loc scale : ℚ) : Except String Gamma2PCont :=
  if a ≤ 0 then .error "a must be greater than zero!!!"
  else if c = 0 then .error "c must not be equal to zero!!!"
  else .ok ⟨a, c, loc, scale⟩

/-- Gamma2PCont.ranval1 from EAAWG_PrecipDepth.py, after the raw gengamma
draw `numd = self.gamma.rvs(...)[0]` has been taken: clamp above to the
month's maximum, then below to the wet/dry threshold. -/
def Gamma2PCont.ranval1 (_g : Gamma2PCont) (numd : ℚ) (mon : Fin 12)
    (maxes : Fin 12 → ℚ) (thresh : ℚ) : ℚ :=
  let numd1 := if numd > maxes mon then maxes mon else numd
  if numd1 < thresh then thresh else numd1

/-- NegBinomial from EAAWG_SpellLength.py. -/
structure NegBinomial where
  N : ℚ
  P : ℚ
  location : ℚ
deriving DecidableEq, Repr

/-- NegBinomial.__init__ from EAAWG_SpellLength.py.  The source's range
checks, verbatim: `(N <= 0.0) or (N > 1000.0)` raises, and
`(P <= 0.0) or (P >= 10)` raises.  Note that the second check uses the
literal 10, although the accompanying error message and the class docstring
describe the bound as 1.0. -/
def NegBinomial.init (N P location : ℚ) : Except String NegBinomial :=
  if N ≤ 0 ∨ 1000 < N then .error "N greater than 1000.0 or less than 0.0!!!"
  else if P ≤ 0 ∨ 10 ≤ P then .error "P greater >= 1.0 or <= 0.0!!!"
  else .ok ⟨N, P, location⟩

/-- NegBinomial.ranval1 from EAAWG_SpellLength.py: returns the raw nbinom
draw unchanged (the draw itself enters the model as an explicit value). -/
def NegBinomial.ranval1 (_nb : NegBinomial) (numd : ℤ) : ℤ := numd

/-- Whether an Except value is the error case. -/
def isErr {ε α : Type} : Except ε α → Bool
  | .error _ => true
  | .ok _ => false

/-- ExtremeEvent from EAAWG_Events.py (after construction). -/
structure ExtremeEvent where
  aveRecurYrs : ℤ
  lowMag : ℚ
  highMag : ℚ
deriving DecidableEq, Repr

/-- ExtremeEvent.nextEventDays from EAAWG_Events.py: the Poisson draw
`offsetYrs` (a non-negative integer count of years) converted to days by
multiplying by 365.25. -/
def ExtremeEvent.nextEventDays (_ev : ExtremeEvent) (offsetYrs : ℕ) : ℚ :=
  (offsetYrs : ℚ) * (1461/4)

/-- SIGMA_THRESH from EAAWG_OtherWeather.py. -/
def SIGMA_THRESH : ℚ := 4

/-- MIN_DAILY_DELTA from EAAWG_OtherWeather.py. -/
def MIN_DAILY_DELTA : ℚ := 4

/-- The sigma clipping applied to each CHI_M0 entry in calcCHI0, via the two
sequential np.where calls. -/
def clampSigma (x : ℚ) : ℚ :=
  let y := if x > SIGMA_THRESH then SIGMA_THRESH else x
  if y < -SIGMA_THRESH then -SIGMA_THRESH else y

/-- Modelled from the spec: the ErrorTSampler class lives in the module
EAAWG_StdNormal, which is not part of the sources; per spec section 4.1 every
sampler is bound at construction to an independent random stream determined
entirely by its seed, so two samplers seeded identically produce identical
output sequences.  A sampler is therefore its seed plus the count of draws
already taken from the seed-determined stream. -/
structure ErrorTSampler where
  seed : ℤ
  count : ℕ
deriving DecidableEq, Repr

/-- Modelled from the spec: StdNormal.ranval1 (module EAAWG_StdNormal, not in
the sources) draws the next standard-normal variate from the supplied random
stream and advances it.  `draw seed n` is the n-th raw value of the stream
with the given seed; `none` stands for a NaN/Inf draw (spec section 4.3
step 1), which updateTracker replaces with 0.25. -/
def stdNormalRanval1 (draw : ℤ → ℕ → Option ℚ) (s : ErrorTSampler) :
    Option ℚ × ErrorTSampler :=
  (draw s.seed s.count, ⟨s.seed, s.count + 1⟩)

/-- The NaN/Inf substitution applied to each EPSI_2 entry by the two
np.where calls in updateTracker: a non-finite draw becomes 0.25. -/
def epsSub (x : Option ℚ) : ℚ := x.getD (1/4)

/-- The module state touched by setupDistsSamples / updateTracker in
EAAWG_OtherWeather.py: the two samplers EPS_NORM_SAMP[0], EPS_NORM_SAMP[1]
and the EPSI_2 tracker row. -/
structure EpsState where
  samp0 : ErrorTSampler
  samp1 : ErrorTSampler
  epsi : ℚ × ℚ
deriving DecidableEq, Repr

/-- setupDistsSamples from EAAWG_OtherWeather.py: both ErrorTSampler objects
are constructed from the single seed_std_norm argument.  EPSI_2 starts as
np.ones, i.e. (1, 1). -/
def setupDistsSamples (draw : ℤ → ℕ → Option ℚ) (seed_std_norm : ℤ) :
    EpsState :=
  let _ := draw
  { samp0 := ⟨seed_std_norm, 0⟩, samp1 := ⟨seed_std_norm, 0⟩, epsi := (1, 1) }

/-- updateTracker from EAAWG_OtherWeather.py: draw one value per channel
from the channel's own sampler, then substitute 0.25 for NaN/Inf. -/
def updateTracker (draw : ℤ → ℕ → Option ℚ) (st : EpsState) : EpsState :=
  let r0 := stdNormalRanval1 draw st.samp0
  let r1 := stdNormalRanval1 draw st.samp1
  { samp0 := r0.2, samp1 := r1.2, epsi := (epsSub r0.1, epsSub r1.1) }

/-- The state after `n` daily updateTracker calls, starting from
setupDistsSamples (as WG_Worker_Main does once before the loop and once per
simulated day). -/
def iterTracker (draw : ℤ → ℕ → Option ℚ) (seed : ℤ) (n : ℕ) : EpsState :=
  (updateTracker draw)^[n] (setupDistsSamples draw seed)

/-- The four 366-entry curve pairs built by constructArrays in
EAAWG_OtherWeather.py (already smoothed, bias constants applied), indexed by
zero-based day-of-year offset. -/
structure Curves where
  wetTmaxAve : ℕ → ℚ
  wetTmaxStd : ℕ → ℚ
  wetTminAve : ℕ → ℚ
  wetTminStd : ℕ → ℚ
  dryTmaxAve : ℕ → ℚ
  dryTmaxStd : ℕ → ℚ
  dryTminAve : ℕ → ℚ
  dryTminStd : ℕ → ℚ

/-- The unadjusted converted pair (cMaxT0, cMinT0) computed by
calculateUpdate in EAAWG_OtherWeather.py before the minimum daily delta is
enforced: CHI channel times std curve plus mean curve, selecting the wet or
dry curve set by the current state. -/
def rawTemps (cv : Curves) (chi : ℚ × ℚ) (dayOYear : ℕ)
    (state : WeatherState) : ℚ × ℚ :=
  match state with
  | .wet => (chi.1 * cv.wetTmaxStd (dayOYear - 1) + cv.wetTmaxAve (dayOYear - 1),
             chi.2 * cv.wetTminStd (dayOYear - 1) + cv.wetTminAve (dayOYear - 1))
  | .dry => (chi.1 * cv.dryTmaxStd (dayOYear - 1) + cv.dryTmaxAve (dayOYear - 1),
             chi.2 * cv.dryTminStd (dayOYear - 1) + cv.dryTminAve (dayOYear - 1))

/-- calculateUpdate from EAAWG_OtherWeather.py (the arithmetic-success path;
the NaN/Inf fallbacks cannot fire over ℚ): compute the converted pair, then
if Tmax − Tmin falls below MIN_DAILY_DELTA raise Tmax to Tmin plus the delta;
the returned pair is (passMaxT, passMinT) as handed to assignTemp. -/
def calculateUpdate (cv : Curves) (chi : ℚ × ℚ) (dayOYear : ℕ)
    (state : WeatherState) : ℚ × ℚ :=
  let r := rawTemps cv chi dayOYear state
  if r.1 - r.2 < MIN_DAILY_DELTA then (r.2 + MIN_DAILY_DELTA, r.2) else r

/-- calcCHI0 from EAAWG_OtherWeather.py (arithmetic-success path): the row
vector CHI_M0 = CHI_L1M0 · A + EPSI_2 · B, each entry then clipped to the
sigma threshold.  a11..b22 are the entries of A_DATA and B_DATA. -/
def calcCHI0 (a11 a12 a21 a22 b11 b12 b21 b22 : ℚ)
    (chiL1 : ℚ × ℚ) (eps : ℚ × ℚ) : ℚ × ℚ :=
  (clampSigma (chiL1.1 * a11 + chiL1.2 * a21 + (eps.1 * b11 + eps.2 * b21)),
   clampSigma (chiL1.1 * a12 + chiL1.2 * a22 + (eps.1 * b12 + eps.2 * b22)))

/-- The stochastic inputs of one realization, as explicit oracle streams:
for every named, independently seeded sampler of the source, the value of
its n-th draw.  dryDraw/wetDraw m n is the n-th nbinom draw of month m's
dry/wet spell distribution (each month owns a sampler object; all are
seeded identically, but the distributions differ so the streams are kept
per month).  pdRaw m n is the n-th raw gengamma draw of month m's depth
distribution, before ranval1's clamping.  evRecurDraw i n is the n-th
Poisson draw (years, a non-negative integer) of event class i, and
evMagDraw i n its n-th Uniform magnitude draw.  snDraw is the seed-indexed
standard-normal stream used by the two EPS samplers (none = NaN/Inf).
starterDraw is the single extra uniform draw of StarterSamp. -/
structure Streams where
  dryDraw : Fin 12 → ℕ → ℤ
  wetDraw : Fin 12 → ℕ → ℤ
  pdRaw : Fin 12 → ℕ → ℚ
  evRecurDraw : Fin 6 → ℕ → ℕ
  evMagDraw : Fin 6 → ℕ → ℚ
  snDraw : ℤ → ℕ → Option ℚ
  snSeed : ℤ
  starterDraw : ℚ

/-- The deterministic per-realization inputs: the calendar (month of day
index j, zero-based months; day of year of day index j), the climatology
curves, the A/B residual matrices, and the constructed distribution
objects of the sampler bank (EVENT_DICT has six classes for this study;
months are Fin 12). -/
structure Env where
  cal : ℕ → Fin 12
  doy : ℕ → ℕ
  cv : Curves
  a11 : ℚ
  a12 : ℚ
  a21 : ℚ
  a22 : ℚ
  b11 : ℚ
  b12 : ℚ
  b21 : ℚ
  b22 : ℚ
  dryDists : Fin 12 → NegBinomial
  wetDists : Fin 12 → NegBinomial
  pdDists : Fin 12 → Gamma2PCont
  events : Fin 6 → ExtremeEvent

/-- The mutable per-realization state of WG_Worker_Main together with the
module-level dictionaries it drives: the wet/dry state and remaining spell
counter, the ST_* sample trackers and the per-month sampler draw counts
(EAAWG_Dists_Samples), the local EvTrigTimes/EvTrigMags snapshot lists and
the NEXT_EVENT_DICT / TTRIG_EVENT_TRACK_DICT event state with per-class
draw counts (EAAWG_Events), the eventTriggered/eventTrigMag accumulators,
the EPS sampler state (EAAWG_OtherWeather), the CHI rows, and the H0_REAL
output buffer columns (EAAWG_HighRealResults). -/
structure WGState where
  h0State : WeatherState
  h0remdur : ℤ
  stDrySpell : Fin 12 → ℤ
  stWetSpell : Fin 12 → ℤ
  stPDepth : Fin 12 → ℚ
  dryCnt : Fin 12 → ℕ
  wetCnt : Fin 12 → ℕ
  pdCnt : Fin 12 → ℕ
  evTrigTimes : Fin 6 → ℚ
  evTrigMags : Fin 6 → ℚ
  nextTimes : Fin 6 → ℚ
  nextMags : Fin 6 → ℚ
  evRecurCnt : Fin 6 → ℕ
  evMagCnt : Fin 6 → ℕ
  evLog : List (Fin 6 × ℕ × ℚ)
  eventTriggered : Bool
  eventTrigMag : ℚ
  eps : EpsState
  chiM0 : ℚ × ℚ
  chiL1M0 : ℚ × ℚ
  precips : ℕ → ℚ
  tmaxs : ℕ → ℚ
  tmins : ℕ → ℚ

/-- assignDryDep from EAAWG_HighRealResults.py: record zero precipitation
at the given time index. -/
def assignDryDep (s : WGState) (tIndex : ℕ) : WGState :=
  { s with precips := Function.update s.precips tIndex 0 }

/-- assignWetDep from EAAWG_HighRealResults.py: record the given depth at
the given time index. -/
def assignWetDep (s : WGState) (tIndex : ℕ) (pVal : ℚ) : WGState :=
  { s with precips := Function.update s.precips tIndex pVal }

/-- assignTemp from EAAWG_HighRealResults.py: record the temperature pair
at the given time index. -/
def assignTemp (s : WGState) (tIndex : ℕ) (maxT minT : ℚ) : WGState :=
  { s with tmaxs := Function.update s.tmaxs tIndex maxT,
           tmins := Function.update s.tmins tIndex minT }

/-- sampleAll from EAAWG_Dists_Samples.py, for current month `mon`: one
ranval1 draw from every month's dry-spell, wet-spell and depth
distribution, refreshing every ST_* tracker entry and advancing every
sampler by one draw; the depth draws are clamped with the current month's
cap. -/
def sampleAll (S : Streams) (E : Env) (mon : Fin 12) (s : WGState) : WGState :=
  { s with
    stDrySpell := fun m => (E.dryDists m).ranval1 (S.dryDraw m (s.dryCnt m)),
    stWetSpell := fun m => (E.wetDists m).ranval1 (S.wetDraw m (s.wetCnt m)),
    stPDepth := fun m =>
      (E.pdDists m).ranval1 (S.pdRaw m (s.pdCnt m)) mon MON_MAX_PP WD_THRESH,
    dryCnt := fun m => s.dryCnt m + 1,
    wetCnt := fun m => s.wetCnt m + 1,
    pdCnt := fun m => s.pdCnt m + 1 }

/-- The WGOW.updateTracker() call of the daily loop, acting on the EPS part
of the realization state. -/
def updateTrackerW (S : Streams) (s : WGState) : WGState :=
  { s with eps := updateTracker S.snDraw s.eps }

/-- updateTriggeredEvent from EAAWG_Events.py, for event index eE at
timestep `curTime` (the day index stands for the pd.Timestamp) with
`curElapsDays` elapsed days: draw a fresh interarrival offset and a fresh
magnitude for the class, append the consumed (time, magnitude) pair to the
class's log, and re-arm NEXT_EVENT_DICT with current elapsed days plus the
fresh offset, and the fresh magnitude. -/
def updateTriggeredEvent (S : Streams) (E : Env) (eE : Fin 6)
    (curTime curElapsDays : ℕ) (s : WGState) : WGState :=
  let curTrigTime := (E.events eE).nextEventDays (S.evRecurDraw eE (s.evRecurCnt eE))
  let curTrigMag := S.evMagDraw eE (s.evMagCnt eE)
  { s with
    evRecurCnt := Function.update s.evRecurCnt eE (s.evRecurCnt eE + 1),
    evMagCnt := Function.update s.evMagCnt eE (s.evMagCnt eE + 1),
    evLog := s.evLog ++ [(eE, curTime, s.nextMags eE)],
    nextTimes := Function.update s.nextTimes eE
      ((curElapsDays : ℚ) + curTrigTime),
    nextMags := Function.update s.nextMags eE curTrigMag }

/-- One pass of the `for eE in range(NumCustomEvents)` loop body in
WG_Worker_Main: if the snapshot trigger time of class eE lies strictly
before day jJ, set eventTriggered, accumulate the snapshot magnitude, and
re-arm the class. -/
def eventCheck (S : Streams) (E : Env) (jJ : ℕ) (s : WGState) (eE : Fin 6) :
    WGState :=
  if s.evTrigTimes eE < (jJ : ℚ) then
    updateTriggeredEvent S E eE jJ jJ
      { s with eventTriggered := true,
               eventTrigMag := s.eventTrigMag + s.evTrigMags eE }
  else s

/-- The whole event-scan loop of WG_Worker_Main over the six classes. -/
def eventCheckLoop (S : Streams) (E : Env) (jJ : ℕ) (s : WGState) : WGState :=
  (List.finRange 6).foldl (eventCheck S E jJ) s

/-- The wet/dry branch of the daily loop body in WG_Worker_Main (lines
200–238): state toggling, event checking and precipitation assignment.
Runs after sampleAll and updateTracker, before the temperature update. -/
def precipStep (S : Streams) (E : Env) (jJ : ℕ) (s : WGState) : WGState :=
  let curMonth := E.cal jJ
  if s.h0State = .wet then
    if s.h0remdur ≤ 0 then
      assignDryDep
        { s with h0State := .dry, h0remdur := s.stDrySpell curMonth } jJ
    else
      let sE := eventCheckLoop S E jJ s
      if sE.eventTriggered then
        assignWetDep
          { sE with evTrigTimes := sE.nextTimes, evTrigMags := sE.nextMags,
                    eventTriggered := false, eventTrigMag := 0 }
          jJ sE.eventTrigMag
      else
        assignWetDep sE jJ (sE.stPDepth curMonth)
  else
    if s.h0remdur ≤ 0 then
      assignWetDep
        { s with h0State := .wet, h0remdur := s.stWetSpell curMonth } jJ
        (s.stPDepth curMonth)
    else
      assignDryDep s jJ

/-- The WGOW.calcCHI0 / WGOW.calculateUpdate portion of the daily loop:
propagate the residual row and record the day's temperatures, using the
(possibly just-updated) state. -/
def tempStep (E : Env) (jJ : ℕ) (s : WGState) : WGState :=
  let chi := calcCHI0 E.a11 E.a12 E.a21 E.a22 E.b11 E.b12 E.b21 E.b22
    s.chiL1M0 s.eps.epsi
  let t := calculateUpdate E.cv chi (E.doy jJ) s.h0State
  assignTemp { s with chiM0 := chi } jJ t.1 t.2

/-- rollOverChis from EAAWG_OtherWeather.py: copy CHI_M0 into CHI_L1M0. -/
def rollOverChis (s : WGState) : WGState := { s with chiL1M0 := s.chiM0 }

/-- One full iteration of the daily loop of WG_Worker_Main for day index
jJ: sample all distributions, update the epsilon tracker, run the wet/dry
precipitation branch, compute the residual and temperatures, decrement the
spell counter, and roll the CHI rows over. -/
def dayStep (S : Streams) (E : Env) (jJ : ℕ) (s : WGState) : WGState :=
  let s2 := precipStep S E jJ (updateTrackerW S (sampleAll S E (E.cal jJ) s))
  let s3 := tempStep E jJ s2
  rollOverChis { s3 with h0remdur := s3.h0remdur - 1 }

/-- The pre-loop set-up of WG_Worker_Main (lines 155–187): setTrackers
draws one value per distribution for the start month (E.cal 0), one
updateTracker call is made, setEvents/setTrackers draw each class's first
trigger offset and magnitude, the starting state is chosen by the single
StarterSamp uniform draw (> 0.5 means WET) with the matching tracker spell
length, and the local event snapshot lists are taken.  H0_REAL is zeroed
and the CHI rows start as np.ones. -/
def initState (S : Streams) (E : Env) : WGState :=
  let mon0 := E.cal 0
  let stDry := fun m => (E.dryDists m).ranval1 (S.dryDraw m 0)
  let stWet := fun m => (E.wetDists m).ranval1 (S.wetDraw m 0)
  let stPD := fun m => (E.pdDists m).ranval1 (S.pdRaw m 0) mon0 MON_MAX_PP WD_THRESH
  let nextT := fun i => (E.events i).nextEventDays (S.evRecurDraw i 0)
  let nextM := fun i => S.evMagDraw i 0
  { h0State := if S.starterDraw > 1/2 then .wet else .dry,
    h0remdur := if S.starterDraw > 1/2 then stWet mon0 else stDry mon0,
    stDrySpell := stDry, stWetSpell := stWet, stPDepth := stPD,
    dryCnt := fun _ => 1, wetCnt := fun _ => 1, pdCnt := fun _ => 1,
    evTrigTimes := nextT, evTrigMags := nextM,
    nextTimes := nextT, nextMags := nextM,
    evRecurCnt := fun _ => 1, evMagCnt := fun _ => 1, evLog := [],
    eventTriggered := false, eventTrigMag := 0,
    eps := updateTracker S.snDraw (setupDistsSamples S.snDraw S.snSeed),
    chiM0 := (1, 1), chiL1M0 := (1, 1),
    precips := fun _ => 0, tmaxs := fun _ => 0, tmins := fun _ => 0 }

/-- Run `n` consecutive daily iterations starting at day index `j` from
state `s`. -/
def runSteps (S : Streams) (E : Env) : ℕ → ℕ → WGState → WGState
  | _, 0, s => s
  | j, n + 1, s => runSteps S E (j + 1) n (dayStep S E j s)

/-- The realization state at the start of day `n` (equivalently, after the
first `n` iterations of the daily loop of WG_Worker_Main). -/
def runReal (S : Streams) (E : Env) (n : ℕ) : WGState :=
  runSteps S E 0 n (initState S E)

/-- The sum of the magnitudes, per the local snapshot lists of
WG_Worker_Main, of all event classes whose snapshot trigger time lies
strictly before day jJ (the classes the event loop triggers that day). -/
def trigSum (jJ : ℕ) (s : WGState) : ℚ :=
  (((List.finRange 6).filter fun eE => decide (s.evTrigTimes eE < (jJ : ℚ))).map
    s.evTrigMags).sum

/-- The spell length drawn by the toggle branch of the daily loop at day
jJ: the freshly sampled tracker entry of the current month for the state
being entered. -/
def drawnLen (S : Streams) (E : Env) (jJ : ℕ) (s : WGState) : ℤ :=
  match s.h0State with
  | .wet => (sampleAll S E (E.cal jJ) s).stDrySpell (E.cal jJ)
  | .dry => (sampleAll S E (E.cal jJ) s).stWetSpell (E.cal jJ)

/-- Abbreviation for the state after the sampling and epsilon-tracker part
of a daily iteration. -/
def postSample (S : Streams) (E : Env) (jJ : ℕ) (s : WGState) : WGState :=
  updateTrackerW S (sampleAll S E (E.cal jJ) s)

/-! Concrete instances used to witness the theorems on explicit inputs. -/

/-- A concrete valid Gamma2PCont object. -/
def testGamma : Gamma2PCont := ⟨1, 1, 0, 1⟩

/-- A concrete valid NegBinomial object. -/
def testNB : NegBinomial := ⟨1, 1/2, 2⟩

/-- A concrete valid ExtremeEvent object. -/
def testEvent : ExtremeEvent := ⟨50, 96, 100⟩

/-- Flat (all-zero) climatology curves for concrete runs. -/
def testCurves : Curves :=
  ⟨fun _ => 0, fun _ => 0, fun _ => 0, fun _ => 0,
   fun _ => 0, fun _ => 0, fun _ => 0, fun _ => 0⟩

/-- A concrete environment: January throughout, identity A and B matrices,
the same valid distribution object for every month and event class. -/
def testEnv : Env :=
  { cal := fun _ => 0, doy := fun j => j + 1, cv := testCurves,
    a11 := 1, a12 := 0, a21 := 0, a22 := 1,
    b11 := 1, b12 := 0, b21 := 0, b22 := 1,
    dryDists := fun _ => testNB, wetDists := fun _ => testNB,
    pdDists := fun _ => testGamma, events := fun _ => testEvent }

/-- Concrete oracle streams on which every event class's first trigger
offset is 0 days (Poisson draw 0), so that all six classes trigger on the
first continuing wet day; the realization starts WET with spell length 5. -/
def cexStreams : Streams :=
  { dryDraw := fun _ _ => 3, wetDraw := fun _ _ => 5, pdRaw := fun _ _ => 1,
    evRecurDraw := fun _ _ => 0, evMagDraw := fun _ _ => 10,
    snDraw := fun _ _ => some 0, snSeed := 31345, starterDraw := 1 }

/-- Concrete streams whose wet-spell draws are all 1 and whose event
recurrence draws are large (no triggers in a short horizon). -/
def oneStreams : Streams :=
  { dryDraw := fun _ _ => 3, wetDraw := fun _ _ => 1, pdRaw := fun _ _ => 1,
    evRecurDraw := fun _ _ => 1000, evMagDraw := fun _ _ => 10,
    snDraw := fun _ _ => some 0, snSeed := 0, starterDraw := 0 }

/-- A concrete realization state, DRY with an exhausted spell counter. -/
def testStateDry : WGState :=
  { h0State := .dry, h0remdur := 0,
    stDrySpell := fun _ => 3, stWetSpell := fun _ => 1, stPDepth := fun _ => 1,
    dryCnt := fun _ => 1, wetCnt := fun _ => 1, pdCnt := fun _ => 1,
    evTrigTimes := fun _ => 365250, evTrigMags := fun _ => 10,
    nextTimes := fun _ => 365250, nextMags := fun _ => 10,
    evRecurCnt := fun _ => 1, evMagCnt := fun _ => 1, evLog := [],
    eventTriggered := false, eventTrigMag := 0,
    eps := ⟨⟨0, 1⟩, ⟨0, 1⟩, (0, 0)⟩,
    chiM0 := (1, 1), chiL1M0 := (1, 1),
    precips := fun _ => 0, tmaxs := fun _ => 0, tmins := fun _ => 0 }

/-! Helper lemmas. -/

lemma WeatherState.other_other (σ : WeatherState) : σ.other.other = σ := by
  cases σ <;> rfl

lemma thresh_le_monmax (m : Fin 12) : WD_THRESH ≤ MON_MAX_PP m := by
  fin_cases m <;> norm_num [MON_MAX_PP, WD_THRESH]

lemma ranval1_ge_thresh (g : Gamma2PCont) (x : ℚ) (mon : Fin 12)
    (maxes : Fin 12 → ℚ) (thresh : ℚ) :
    thresh ≤ g.ranval1 x mon maxes thresh := by
  simp only [Gamma2PCont.ranval1]
  split_ifs <;> linarith

lemma ranval1_le_max (g : Gamma2PCont) (x : ℚ) (mon : Fin 12)
    (maxes : Fin 12 → ℚ) (thresh : ℚ) (h : thresh ≤ maxes mon) :
    g.ranval1 x mon maxes thresh ≤ maxes mon := by
  simp only [Gamma2PCont.ranval1]
  split_ifs <;> linarith

lemma calculateUpdate_spec (cv : Curves) (chi : ℚ × ℚ) (doy : ℕ)
    (st : WeatherState) :
    MIN_DAILY_DELTA ≤
        (calculateUpdate cv chi doy st).1 - (calculateUpdate cv chi doy st).2 ∧
    (calculateUpdate cv chi doy st).2 = (rawTemps cv chi doy st).2 ∧
    ((rawTemps cv chi doy st).1 - (rawTemps cv chi doy st).2 < MIN_DAILY_DELTA →
      (calculateUpdate cv chi doy st).1 =
        (calculateUpdate cv chi doy st).2 + MIN_DAILY_DELTA) := by
  simp only [calculateUpdate]
  split_ifs with h
  · refine ⟨by simp, rfl, fun _ => by simp⟩
  · exact ⟨by push_neg at h; linarith, rfl, fun hc => absurd hc h⟩

lemma finRange_six : List.finRange 6 = [0, 1, 2, 3, 4, 5] := by decide

/-! Frame and characterization lemmas for the event-scan loop. -/

lemma eventCheck_base (S : Streams) (E : Env) (jJ : ℕ) (s : WGState)
    (eE : Fin 6) :
    (eventCheck S E jJ s eE).h0State = s.h0State ∧
    (eventCheck S E jJ s eE).h0remdur = s.h0remdur ∧
    (eventCheck S E jJ s eE).stDrySpell = s.stDrySpell ∧
    (eventCheck S E jJ s eE).stWetSpell = s.stWetSpell ∧
    (eventCheck S E jJ s eE).stPDepth = s.stPDepth ∧
    (eventCheck S E jJ s eE).dryCnt = s.dryCnt ∧
    (eventCheck S E jJ s eE).wetCnt = s.wetCnt ∧
    (eventCheck S E jJ s eE).pdCnt = s.pdCnt ∧
    (eventCheck S E jJ s eE).evTrigTimes = s.evTrigTimes ∧
    (eventCheck S E jJ s eE).evTrigMags = s.evTrigMags := by
  simp only [eventCheck, updateTriggeredEvent]
  split_ifs <;> exact ⟨rfl, rfl, rfl, rfl, rfl, rfl, rfl, rfl, rfl, rfl⟩

lemma eventCheck_triggered (S : Streams) (E : Env) (jJ : ℕ) (s : WGState)
    (eE : Fin 6) :
    (eventCheck S E jJ s eE).eventTriggered =
      (s.eventTriggered || decide (s.evTrigTimes eE < (jJ : ℚ))) := by
  simp only [eventCheck, updateTriggeredEvent]
  split_ifs with h <;> simp [h]

lemma eventCheck_mag (S : Streams) (E : Env) (jJ : ℕ) (s : WGState)
    (eE : Fin 6) :
    (eventCheck S E jJ s eE).eventTrigMag =
      s.eventTrigMag + (if s.evTrigTimes eE < (jJ : ℚ) then s.evTrigMags eE else 0) := by
  simp only [eventCheck, updateTriggeredEvent]
  split_ifs with h <;> simp [h]

lemma eventFold_base (S : Streams) (E : Env) (jJ : ℕ) :
    ∀ (l : List (Fin 6)) (s : WGState),
    (l.foldl (eventCheck S E jJ) s).h0State = s.h0State ∧
    (l.foldl (eventCheck S E jJ) s).h0remdur = s.h0remdur ∧
    (l.foldl (eventCheck S E jJ) s).stDrySpell = s.stDrySpell ∧
    (l.foldl (eventCheck S E jJ) s).stWetSpell = s.stWetSpell ∧
    (l.foldl (eventCheck S E jJ) s).stPDepth = s.stPDepth ∧
    (l.foldl (eventCheck S E jJ) s).dryCnt = s.dryCnt ∧
    (l.foldl (eventCheck S E jJ) s).wetCnt = s.wetCnt ∧
    (l.foldl (eventCheck S E jJ) s).pdCnt = s.pdCnt ∧
    (l.foldl (eventCheck S E jJ) s).evTrigTimes = s.evTrigTimes ∧
    (l.foldl (eventCheck S E jJ) s).evTrigMags = s.evTrigMags := by
  intro l
  induction l with
  | nil =>
      intro s
      exact ⟨rfl, rfl, rfl, rfl, rfl, rfl, rfl, rfl, rfl, rfl⟩
  | cons e l ih =>
      intro s
      obtain ⟨a1, a2, a3, a4, a5, a6, a7, a8, a9, a10⟩ :=
        eventCheck_base S E jJ s e
      obtain ⟨b1, b2, b3, b4, b5, b6, b7, b8, b9, b10⟩ :=
        ih (eventCheck S E jJ s e)
      simp only [List.foldl_cons]
      exact ⟨b1.trans a1, b2.trans a2, b3.trans a3, b4.trans a4, b5.trans a5,
             b6.trans a6, b7.trans a7, b8.trans a8, b9.trans a9, b10.trans a10⟩

lemma eventFold_triggered (S : Streams) (E : Env) (jJ : ℕ) :
    ∀ (l : List (Fin 6)) (s : WGState),
    (l.foldl (eventCheck S E jJ) s).eventTriggered =
      (s.eventTriggered || l.any fun eE => decide (s.evTrigTimes eE < (jJ : ℚ))) := by
  intro l
  induction l with
  | nil => intro s; simp
  | cons e l ih =>
      intro s
      have h9 := (eventCheck_base S E jJ s e).2.2.2.2.2.2.2.2.1
      simp only [List.foldl_cons, List.any_cons]
      rw [ih (eventCheck S E jJ s e), eventCheck_triggered, h9, Bool.or_assoc]

lemma eventFold_mag (S : Streams) (E : Env) (jJ : ℕ) :
    ∀ (l : List (Fin 6)) (s : WGState),
    (l.foldl (eventCheck S E jJ) s).eventTrigMag =
      s.eventTrigMag +
        ((l.filter fun eE => decide (s.evTrigTimes eE < (jJ : ℚ))).map
          s.evTrigMags).sum := by
  intro l
  induction l with
  | nil => intro s; simp
  | cons e l ih =>
      intro s
      have h9 := (eventCheck_base S E jJ s e).2.2.2.2.2.2.2.2.1
      have h10 := (eventCheck_base S E jJ s e).2.2.2.2.2.2.2.2.2
      simp only [List.foldl_cons]
      rw [ih (eventCheck S E jJ s e), eventCheck_mag, h9, h10]
      by_cases h : s.evTrigTimes e < (jJ : ℚ)
      · simp [h]
        ring
      · simp [h]

/-- The scan loop run by the daily loop: over the six event classes in
index order. -/
lemma eventCheckLoop_eq (S : Streams) (E : Env) (jJ : ℕ) (s : WGState) :
    eventCheckLoop S E jJ s = (List.finRange 6).foldl (eventCheck S E jJ) s := rfl

/-! Branch lemmas for the wet/dry precipitation step and projection lemmas
for the daily step. -/

lemma precipStep_wet_toggle (S : Streams) (E : Env) (jJ : ℕ) (s : WGState)
    (h1 : s.h0State = .wet) (h2 : s.h0remdur ≤ 0) :
    precipStep S E jJ s =
      assignDryDep { s with h0State := .dry,
                            h0remdur := s.stDrySpell (E.cal jJ) } jJ := by
  simp only [precipStep]
  rw [if_pos h1, if_pos h2]

lemma precipStep_wet_stay_trig (S : Streams) (E : Env) (jJ : ℕ) (s : WGState)
    (h1 : s.h0State = .wet) (h2 : ¬ s.h0remdur ≤ 0)
    (h3 : (eventCheckLoop S E jJ s).eventTriggered = true) :
    precipStep S E jJ s =
      assignWetDep
        { eventCheckLoop S E jJ s with
          evTrigTimes := (eventCheckLoop S E jJ s).nextTimes,
          evTrigMags := (eventCheckLoop S E jJ s).nextMags,
          eventTriggered := false, eventTrigMag := 0 }
        jJ (eventCheckLoop S E jJ s).eventTrigMag := by
  simp only [precipStep]
  rw [if_pos h1, if_neg h2, if_pos h3]

lemma precipStep_wet_stay_notrig (S : Streams) (E : Env) (jJ : ℕ)
    (s : WGState) (h1 : s.h0State = .wet) (h2 : ¬ s.h0remdur ≤ 0)
    (h3 : (eventCheckLoop S E jJ s).eventTriggered = false) :
    precipStep S E jJ s =
      assignWetDep (eventCheckLoop S E jJ s) jJ
        ((eventCheckLoop S E jJ s).stPDepth (E.cal jJ)) := by
  simp only [precipStep]
  rw [if_pos h1, if_neg h2, if_neg (by simp [h3])]

lemma precipStep_dry_toggle (S : Streams) (E : Env) (jJ : ℕ) (s : WGState)
    (h1 : s.h0State = .dry) (h2 : s.h0remdur ≤ 0) :
    precipStep S E jJ s =
      assignWetDep { s with h0State := .wet,
                            h0remdur := s.stWetSpell (E.cal jJ) } jJ
        (s.stPDepth (E.cal jJ)) := by
  simp only [precipStep]
  rw [if_neg (by simp [h1]), if_pos h2]

lemma precipStep_dry_stay (S : Streams) (E : Env) (jJ : ℕ) (s : WGState)
    (h1 : s.h0State = .dry) (h2 : ¬ s.h0remdur ≤ 0) :
    precipStep S E jJ s = assignDryDep s jJ := by
  simp only [precipStep]
  rw [if_neg (by simp [h1]), if_neg h2]

lemma dayStep_precips (S : Streams) (E : Env) (jJ : ℕ) (s : WGState) :
    (dayStep S E jJ s).precips =
      (precipStep S E jJ (postSample S E jJ s)).precips := rfl

lemma dayStep_h0State (S : Streams) (E : Env) (jJ : ℕ) (s : WGState) :
    (dayStep S E jJ s).h0State =
      (precipStep S E jJ (postSample S E jJ s)).h0State := rfl

lemma dayStep_h0remdur (S : Streams) (E : Env) (jJ : ℕ) (s : WGState) :
    (dayStep S E jJ s).h0remdur =
      (precipStep S E jJ (postSample S E jJ s)).h0remdur - 1 := rfl

lemma dayStep_flags (S : Streams) (E : Env) (jJ : ℕ) (s : WGState) :
    (dayStep S E jJ s).eventTriggered =
      (precipStep S E jJ (postSample S E jJ s)).eventTriggered ∧
    (dayStep S E jJ s).eventTrigMag =
      (precipStep S E jJ (postSample S E jJ s)).eventTrigMag := ⟨rfl, rfl⟩

lemma dayStep_evFrame (S : Streams) (E : Env) (jJ : ℕ) (s : WGState) :
    (dayStep S E jJ s).nextTimes =
      (precipStep S E jJ (postSample S E jJ s)).nextTimes ∧
    (dayStep S E jJ s).nextMags =
      (precipStep S E jJ (postSample S E jJ s)).nextMags ∧
    (dayStep S E jJ s).evRecurCnt =
      (precipStep S E jJ (postSample S E jJ s)).evRecurCnt ∧
    (dayStep S E jJ s).evMagCnt =
      (precipStep S E jJ (postSample S E jJ s)).evMagCnt ∧
    (dayStep S E jJ s).evLog =
      (precipStep S E jJ (postSample S E jJ s)).evLog ∧
    (dayStep S E jJ s).evTrigTimes =
      (precipStep S E jJ (postSample S E jJ s)).evTrigTimes ∧
    (dayStep S E jJ s).evTrigMags =
      (precipStep S E jJ (postSample S E jJ s)).evTrigMags :=
  ⟨rfl, rfl, rfl, rfl, rfl, rfl, rfl⟩

lemma dayStep_samples (S : Streams) (E : Env) (jJ : ℕ) (s : WGState) :
    (dayStep S E jJ s).stDrySpell =
      (precipStep S E jJ (postSample S E jJ s)).stDrySpell ∧
    (dayStep S E jJ s).stWetSpell =
      (precipStep S E jJ (postSample S E jJ s)).stWetSpell ∧
    (dayStep S E jJ s).stPDepth =
      (precipStep S E jJ (postSample S E jJ s)).stPDepth ∧
    (dayStep S E jJ s).dryCnt =
      (precipStep S E jJ (postSample S E jJ s)).dryCnt ∧
    (dayStep S E jJ s).wetCnt =
      (precipStep S E jJ (postSample S E jJ s)).wetCnt ∧
    (dayStep S E jJ s).pdCnt =
      (precipStep S E jJ (postSample S E jJ s)).pdCnt :=
  ⟨rfl, rfl, rfl, rfl, rfl, rfl⟩

lemma dayStep_temp_vals (S : Streams) (E : Env) (jJ : ℕ) (s : WGState) :
    (dayStep S E jJ s).tmaxs jJ =
      (calculateUpdate E.cv ((dayStep S E jJ s).chiM0) (E.doy jJ)
        ((dayStep S E jJ s).h0State)).1 ∧
    (dayStep S E jJ s).tmins jJ =
      (calculateUpdate E.cv ((dayStep S E jJ s).chiM0) (E.doy jJ)
        ((dayStep S E jJ s).h0State)).2 := by
  constructor <;>
    simp [dayStep, tempStep, rollOverChis, assignTemp]

/-! State-transition lemmas for a full daily iteration, and the run
lemmas. -/

lemma precipStep_state_stay (S : Streams) (E : Env) (jJ : ℕ) (s : WGState)
    (h : 0 < s.h0remdur) :
    (precipStep S E jJ s).h0State = s.h0State ∧
    (precipStep S E jJ s).h0remdur = s.h0remdur := by
  have h2 : ¬ s.h0remdur ≤ 0 := by omega
  rcases hst : s.h0State with _ | _
  · rcases h3 : (eventCheckLoop S E jJ s).eventTriggered with _ | _
    · rw [precipStep_wet_stay_notrig S E jJ s hst h2 h3]
      have hb := eventFold_base S E jJ (List.finRange 6) s
      exact ⟨hb.1.trans hst, hb.2.1⟩
    · rw [precipStep_wet_stay_trig S E jJ s hst h2 h3]
      have hb := eventFold_base S E jJ (List.finRange 6) s
      exact ⟨hb.1.trans hst, hb.2.1⟩
  · rw [precipStep_dry_stay S E jJ s hst h2]
    exact ⟨hst, rfl⟩

lemma precipStep_state_toggle (S : Streams) (E : Env) (jJ : ℕ) (s : WGState)
    (h : s.h0remdur ≤ 0) :
    (precipStep S E jJ s).h0State = s.h0State.other ∧
    (precipStep S E jJ s).h0remdur =
      (match s.h0State with
       | .wet => s.stDrySpell (E.cal jJ)
       | .dry => s.stWetSpell (E.cal jJ)) := by
  rcases hst : s.h0State with _ | _
  · rw [precipStep_wet_toggle S E jJ s hst h]
    exact ⟨rfl, rfl⟩
  · rw [precipStep_dry_toggle S E jJ s hst h]
    exact ⟨rfl, rfl⟩

lemma postSample_frame (S : Streams) (E : Env) (jJ : ℕ) (s : WGState) :
    (postSample S E jJ s).h0State = s.h0State ∧
    (postSample S E jJ s).h0remdur = s.h0remdur ∧
    (postSample S E jJ s).evTrigTimes = s.evTrigTimes ∧
    (postSample S E jJ s).evTrigMags = s.evTrigMags ∧
    (postSample S E jJ s).eventTriggered = s.eventTriggered ∧
    (postSample S E jJ s).eventTrigMag = s.eventTrigMag ∧
    (postSample S E jJ s).nextTimes = s.nextTimes ∧
    (postSample S E jJ s).nextMags = s.nextMags ∧
    (postSample S E jJ s).evRecurCnt = s.evRecurCnt ∧
    (postSample S E jJ s).evMagCnt = s.evMagCnt ∧
    (postSample S E jJ s).evLog = s.evLog :=
  ⟨rfl, rfl, rfl, rfl, rfl, rfl, rfl, rfl, rfl, rfl, rfl⟩

lemma postSample_samples (S : Streams) (E : Env) (jJ : ℕ) (s : WGState) :
    (postSample S E jJ s).stDrySpell =
      (sampleAll S E (E.cal jJ) s).stDrySpell ∧
    (postSample S E jJ s).stWetSpell =
      (sampleAll S E (E.cal jJ) s).stWetSpell ∧
    (postSample S E jJ s).stPDepth =
      (sampleAll S E (E.cal jJ) s).stPDepth ∧
    (postSample S E jJ s).dryCnt = (fun m => s.dryCnt m + 1) ∧
    (postSample S E jJ s).wetCnt = (fun m => s.wetCnt m + 1) ∧
    (postSample S E jJ s).pdCnt = (fun m => s.pdCnt m + 1) :=
  ⟨rfl, rfl, rfl, rfl, rfl, rfl⟩

lemma dayStep_stay (S : Streams) (E : Env) (jJ : ℕ) (s : WGState)
    (h : 0 < s.h0remdur) :
    (dayStep S E jJ s).h0State = s.h0State ∧
    (dayStep S E jJ s).h0remdur = s.h0remdur - 1 := by
  have h1 : 0 < (postSample S E jJ s).h0remdur := h
  obtain ⟨ha, hb⟩ := precipStep_state_stay S E jJ (postSample S E jJ s) h1
  exact ⟨(dayStep_h0State S E jJ s).trans ha,
         (dayStep_h0remdur S E jJ s).trans (by rw [hb]; rfl)⟩

lemma dayStep_toggle (S : Streams) (E : Env) (jJ : ℕ) (s : WGState)
    (h : s.h0remdur ≤ 0) :
    (dayStep S E jJ s).h0State = s.h0State.other ∧
    (dayStep S E jJ s).h0remdur = drawnLen S E jJ s - 1 := by
  have h1 : (postSample S E jJ s).h0remdur ≤ 0 := h
  obtain ⟨ha, hb⟩ := precipStep_state_toggle S E jJ (postSample S E jJ s) h1
  have hps : (postSample S E jJ s).h0State = s.h0State := rfl
  rw [hps] at ha hb
  refine ⟨(dayStep_h0State S E jJ s).trans ha, ?_⟩
  rw [dayStep_h0remdur S E jJ s, hb]
  rcases hst : s.h0State with _ | _ <;>
    simp only [drawnLen, hst] <;> rfl

lemma runSteps_zero (S : Streams) (E : Env) (j : ℕ) (s : WGState) :
    runSteps S E j 0 s = s := rfl

lemma runSteps_front (S : Streams) (E : Env) (j n : ℕ) (s : WGState) :
    runSteps S E j (n + 1) s = runSteps S E (j + 1) n (dayStep S E j s) := rfl

lemma runSteps_succ (S : Streams) (E : Env) :
    ∀ (n j : ℕ) (s : WGState),
      runSteps S E j (n + 1) s = dayStep S E (j + n) (runSteps S E j n s) := by
  intro n
  induction n with
  | zero => intro j s; rfl
  | succ n ih =>
      intro j s
      rw [runSteps_front, ih (j + 1) (dayStep S E j s)]
      rw [show j + 1 + n = j + (n + 1) by omega]
      rfl

lemma runReal_zero (S : Streams) (E : Env) :
    runReal S E 0 = initState S E := rfl

lemma runReal_succ (S : Streams) (E : Env) (n : ℕ) :
    runReal S E (n + 1) = dayStep S E n (runReal S E n) := by
  unfold runReal
  rw [runSteps_succ S E n 0 (initState S E)]
  norm_num

lemma stay_run (S : Streams) (E : Env) :
    ∀ (k j : ℕ) (s : WGState), (k : ℤ) ≤ s.h0remdur →
      (runSteps S E j k s).h0State = s.h0State ∧
      (runSteps S E j k s).h0remdur = s.h0remdur - k := by
  intro k
  induction k with
  | zero => intro j s _; exact ⟨rfl, by norm_num [runSteps_zero]⟩
  | succ k ih =>
      intro j s h
      have hpos : 0 < s.h0remdur := by push_cast at h; omega
      obtain ⟨ha, hb⟩ := dayStep_stay S E j s hpos
      have hk : (k : ℤ) ≤ (dayStep S E j s).h0remdur := by
        rw [hb]; push_cast at h ⊢; omega
      obtain ⟨hc, hd⟩ := ih (j + 1) (dayStep S E j s) hk
      rw [runSteps_front]
      refine ⟨hc.trans ha, ?_⟩
      rw [hd, hb]
      push_cast
      ring

lemma noTrig_sum_zero (S : Streams) (E : Env) (jJ : ℕ) (s : WGState)
    (h : ((List.finRange 6).foldl (eventCheck S E jJ) s).eventTriggered = false)
    (ht : s.eventTriggered = false) :
    (((List.finRange 6).filter fun eE =>
        decide (s.evTrigTimes eE < (jJ : ℚ))).map s.evTrigMags).sum = 0 := by
  rw [eventFold_triggered S E jJ (List.finRange 6) s, ht, Bool.false_or] at h
  have hnil : ((List.finRange 6).filter fun eE =>
      decide (s.evTrigTimes eE < (jJ : ℚ))) = [] := by
    rw [List.filter_eq_nil_iff]
    intro a _
    have := List.any_eq_false.mp h a (List.mem_finRange a)
    simpa using this
  rw [hnil]
  rfl

lemma dayStep_flags_inv (S : Streams) (E : Env) (jJ : ℕ) (s : WGState)
    (ht : s.eventTriggered = false) (hm : s.eventTrigMag = 0) :
    (dayStep S E jJ s).eventTriggered = false ∧
    (dayStep S E jJ s).eventTrigMag = 0 := by
  obtain ⟨hf1, hf2⟩ := dayStep_flags S E jJ s
  rw [hf1, hf2]
  have ht1 : (postSample S E jJ s).eventTriggered = false := ht
  have hm1 : (postSample S E jJ s).eventTrigMag = 0 := hm
  rcases hst : (postSample S E jJ s).h0State with _ | _
  · by_cases h2 : (postSample S E jJ s).h0remdur ≤ 0
    · rw [precipStep_wet_toggle S E jJ _ hst h2]
      exact ⟨ht1, hm1⟩
    · rcases h3 : (eventCheckLoop S E jJ (postSample S E jJ s)).eventTriggered
        with _ | _
      · rw [precipStep_wet_stay_notrig S E jJ _ hst h2 h3]
        refine ⟨h3, ?_⟩
        show (eventCheckLoop S E jJ (postSample S E jJ s)).eventTrigMag = 0
        rw [eventCheckLoop_eq,
          eventFold_mag S E jJ (List.finRange 6) (postSample S E jJ s), hm1,
          noTrig_sum_zero S E jJ (postSample S E jJ s) h3 ht1]
        ring
      · rw [precipStep_wet_stay_trig S E jJ _ hst h2 h3]
        exact ⟨rfl, rfl⟩
  · by_cases h2 : (postSample S E jJ s).h0remdur ≤ 0
    · rw [precipStep_dry_toggle S E jJ _ hst h2]
      exact ⟨ht1, hm1⟩
    · rw [precipStep_dry_stay S E jJ _ hst h2]
      exact ⟨ht1, hm1⟩

lemma runReal_flags (S : Streams) (E : Env) :
    ∀ n : ℕ, (runReal S E n).eventTriggered = false ∧
      (runReal S E n).eventTrigMag = 0 := by
  intro n
  induction n with
  | zero => exact ⟨rfl, rfl⟩
  | succ n ih =>
      rw [runReal_succ]
      exact dayStep_flags_inv S E n (runReal S E n) ih.1 ih.2

lemma WeatherState.eq_dry_of_ne_wet {σ : WeatherState} (h : ¬ σ = .wet) :
    σ = .dry := by
  cases σ
  · exact absurd rfl h
  · rfl

lemma dayStep_precip_char (S : Streams) (E : Env) (jJ : ℕ) (s : WGState)
    (ht : s.eventTriggered = false) (hm : s.eventTrigMag = 0) :
    ((dayStep S E jJ s).h0State = .dry → (dayStep S E jJ s).precips jJ = 0) ∧
    ((dayStep S E jJ s).h0State = .wet →
      (dayStep S E jJ s).precips jJ =
        if s.h0State = .wet ∧ ∃ eE : Fin 6, s.evTrigTimes eE < (jJ : ℚ)
        then trigSum jJ s
        else (sampleAll S E (E.cal jJ) s).stPDepth (E.cal jJ)) := by
  have hprec := dayStep_precips S E jJ s
  have hstate := dayStep_h0State S E jJ s
  have h1t : (postSample S E jJ s).eventTriggered = false := ht
  have h1m : (postSample S E jJ s).eventTrigMag = 0 := hm
  have h1st : (postSample S E jJ s).h0State = s.h0State := rfl
  have h1times : (postSample S E jJ s).evTrigTimes = s.evTrigTimes := rfl
  have h1mags : (postSample S E jJ s).evTrigMags = s.evTrigMags := rfl
  have h1pd : (postSample S E jJ s).stPDepth =
      (sampleAll S E (E.cal jJ) s).stPDepth := rfl
  by_cases hws : s.h0State = .wet
  · -- WET at the start of the check
    by_cases h2 : (postSample S E jJ s).h0remdur ≤ 0
    · -- toggle to DRY, record zero
      have heq := precipStep_wet_toggle S E jJ _ (h1st.trans hws) h2
      constructor
      · intro _
        rw [hprec, heq]
        simp [assignDryDep]
      · intro hw
        rw [hstate, heq] at hw
        simp [assignDryDep] at hw
    · have hanyeq : (eventCheckLoop S E jJ (postSample S E jJ s)).eventTriggered
          = (List.finRange 6).any fun eE => decide (s.evTrigTimes eE < (jJ : ℚ)) := by
        rw [eventCheckLoop_eq, eventFold_triggered, h1t, Bool.false_or, h1times]
      rcases h3 : (eventCheckLoop S E jJ (postSample S E jJ s)).eventTriggered
          with _ | _
      · -- continuing WET day with no trigger: base depth
        have heq := precipStep_wet_stay_notrig S E jJ _ (h1st.trans hws) h2 h3
        have hcond : ¬ (s.h0State = .wet ∧
            ∃ eE : Fin 6, s.evTrigTimes eE < (jJ : ℚ)) := by
          rintro ⟨-, eE, he⟩
          rw [h3] at hanyeq
          have hne := List.any_eq_false.mp hanyeq.symm eE (List.mem_finRange eE)
          simp at hne
          exact absurd he (not_lt.mpr hne)
        constructor
        · intro hd
          exfalso
          rw [hstate, heq] at hd
          have hb := (eventFold_base S E jJ (List.finRange 6)
            (postSample S E jJ s)).1
          simp only [assignWetDep] at hd
          rw [eventCheckLoop_eq] at hd
          rw [hb, h1st, hws] at hd
          simp at hd
        · intro _
          rw [hprec, heq, if_neg hcond]
          simp only [assignWetDep, Function.update_same]
          have hb := (eventFold_base S E jJ (List.finRange 6)
            (postSample S E jJ s)).2.2.2.2.1
          rw [eventCheckLoop_eq, hb, h1pd]
      · -- continuing WET day with at least one trigger: event sum only
        have heq := precipStep_wet_stay_trig S E jJ _ (h1st.trans hws) h2 h3
        have hcond : s.h0State = .wet ∧
            ∃ eE : Fin 6, s.evTrigTimes eE < (jJ : ℚ) := by
          refine ⟨hws, ?_⟩
          rw [h3] at hanyeq
          obtain ⟨eE, _, hdec⟩ := List.any_eq_true.mp hanyeq.symm
          exact ⟨eE, by simpa using hdec⟩
        constructor
        · intro hd
          exfalso
          rw [hstate, heq] at hd
          have hb := (eventFold_base S E jJ (List.finRange 6)
            (postSample S E jJ s)).1
          simp only [assignWetDep] at hd
          rw [eventCheckLoop_eq] at hd
          rw [hb, h1st, hws] at hd
          simp at hd
        · intro _
          rw [hprec, heq, if_pos hcond]
          simp only [assignWetDep, Function.update_same]
          rw [eventCheckLoop_eq, eventFold_mag, h1m, h1times, h1mags]
          simp only [trigSum]
          ring
  · -- DRY at the start of the check
    have hwd : s.h0State = .dry := WeatherState.eq_dry_of_ne_wet hws
    by_cases h2 : (postSample S E jJ s).h0remdur ≤ 0
    · -- toggle to WET: base depth, no event scan
      have heq := precipStep_dry_toggle S E jJ _ (h1st.trans hwd) h2
      have hcond : ¬ (s.h0State = .wet ∧
          ∃ eE : Fin 6, s.evTrigTimes eE < (jJ : ℚ)) := by
        rintro ⟨hww, -⟩
        exact hws hww
      constructor
      · intro hd
        exfalso
        rw [hstate, heq] at hd
        simp [assignWetDep] at hd
      · intro _
        rw [hprec, heq, if_neg hcond]
        simp only [assignWetDep, Function.update_same]
        exact congrFun h1pd (E.cal jJ)
    · -- continuing DRY day: zero
      have heq := precipStep_dry_stay S E jJ _ (h1st.trans hwd) h2
      constructor
      · intro _
        rw [hprec, heq]
        simp [assignDryDep]
      · intro hw
        exfalso
        rw [hstate, heq] at hw
        simp only [assignDryDep] at hw
        rw [h1st, hwd] at hw
        simp at hw

lemma precipStep_samples (S : Streams) (E : Env) (jJ : ℕ) (s : WGState) :
    (precipStep S E jJ s).stDrySpell = s.stDrySpell ∧
    (precipStep S E jJ s).stWetSpell = s.stWetSpell ∧
    (precipStep S E jJ s).stPDepth = s.stPDepth ∧
    (precipStep S E jJ s).dryCnt = s.dryCnt ∧
    (precipStep S E jJ s).wetCnt = s.wetCnt ∧
    (precipStep S E jJ s).pdCnt = s.pdCnt := by
  have hb := eventFold_base S E jJ (List.finRange 6) s
  by_cases h1 : s.h0State = .wet
  · by_cases h2 : s.h0remdur ≤ 0
    · rw [precipStep_wet_toggle S E jJ s h1 h2]
      exact ⟨rfl, rfl, rfl, rfl, rfl, rfl⟩
    · rcases h3 : (eventCheckLoop S E jJ s).eventTriggered with _ | _
      · rw [precipStep_wet_stay_notrig S E jJ s h1 h2 h3]
        exact ⟨hb.2.2.1, hb.2.2.2.1, hb.2.2.2.2.1, hb.2.2.2.2.2.1,
               hb.2.2.2.2.2.2.1, hb.2.2.2.2.2.2.2.1⟩
      · rw [precipStep_wet_stay_trig S E jJ s h1 h2 h3]
        exact ⟨hb.2.2.1, hb.2.2.2.1, hb.2.2.2.2.1, hb.2.2.2.2.2.1,
               hb.2.2.2.2.2.2.1, hb.2.2.2.2.2.2.2.1⟩
  · have hwd := WeatherState.eq_dry_of_ne_wet h1
    by_cases h2 : s.h0remdur ≤ 0
    · rw [precipStep_dry_toggle S E jJ s hwd h2]
      exact ⟨rfl, rfl, rfl, rfl, rfl, rfl⟩
    · rw [precipStep_dry_stay S E jJ s hwd h2]
      exact ⟨rfl, rfl, rfl, rfl, rfl, rfl⟩

/-! The claim theorems. -/

/-- C2: for any constructed Gamma-depth distribution, a single-value sample
(the clamping applied by ranval1 to the raw gengamma draw, with the default
monthly caps and wet/dry threshold) always lies in the closed interval
from the wet/dry threshold to the month's cap; a draw below the threshold
is raised to the threshold and a draw above the cap is truncated to the
cap. -/
theorem claim2_gamma_sample_bounds (g : Gamma2PCont) (x : ℚ) (mon : Fin 12) :
    WD_THRESH ≤ g.ranval1 x mon MON_MAX_PP WD_THRESH ∧
    g.ranval1 x mon MON_MAX_PP WD_THRESH ≤ MON_MAX_PP mon ∧
    (x < WD_THRESH → g.ranval1 x mon MON_MAX_PP WD_THRESH = WD_THRESH) ∧
    (MON_MAX_PP mon < x →
      g.ranval1 x mon MON_MAX_PP WD_THRESH = MON_MAX_PP mon) := by
  have hmax := thresh_le_monmax mon
  refine ⟨ranval1_ge_thresh g x mon _ _, ranval1_le_max g x mon _ _ hmax,
    ?_, ?_⟩
  · intro hx
    simp only [Gamma2PCont.ranval1]
    split_ifs <;> first | rfl | linarith
  · intro hx
    simp only [Gamma2PCont.ranval1]
    split_ifs <;> first | rfl | linarith

/-- C2 witness: concrete clamping on both sides for January. -/
theorem claim2_witness :
    testGamma.ranval1 0 0 MON_MAX_PP WD_THRESH = WD_THRESH ∧
    testGamma.ranval1 100 0 MON_MAX_PP WD_THRESH = MON_MAX_PP 0 := by
  have h0 : MON_MAX_PP 0 = 47/2 := rfl
  exact ⟨(claim2_gamma_sample_bounds testGamma 0 0).2.2.1
           (by norm_num [WD_THRESH]),
         (claim2_gamma_sample_bounds testGamma 100 0).2.2.2
           (by rw [h0]; norm_num)⟩

/-- C5: the claim says NegBinomial construction must reject every
probability parameter P outside (0, 1], for example P = 2.0; the source's
check is `(P <= 0.0) or (P >= 10)`, so P = 2.0 is accepted even though the
class docstring and the check's own error message state the bound 1.0 —
the constructor succeeds at (N, P, location) = (1, 2, 0). -/
theorem claim5_negbinomial_accepts_P2 :
    NegBinomial.init 1 2 0 = .ok ⟨1, 2, 0⟩ ∧
    isErr (NegBinomial.init 1 2 0) = false := by
  constructor <;> norm_num [NegBinomial.init, isErr]

/-- C6 counterexample: the claim says construction must signal an error
whenever a shape parameter is non-positive or the scale parameter is
non-positive; the source checks only `a <= 0` and `c == 0`, so both a
negative shape c and a negative scale are accepted. -/
theorem claim6_counterexample :
    Gamma2PCont.init 1 (-1) 0 1 = .ok ⟨1, -1, 0, 1⟩ ∧
    Gamma2PCont.init 1 1 0 (-1) = .ok ⟨1, 1, 0, -1⟩ := by
  constructor <;> norm_num [Gamma2PCont.init]

/-- C6 amended: Gamma-depth construction signals an invalid-parameter
error exactly when the shape parameter a is non-positive or the shape
parameter c equals zero (in particular a = -1.0 fails construction);
negative c and non-positive scale are accepted. -/
theorem claim6_gamma_init_errors (a c loc scale : ℚ) :
    isErr (Gamma2PCont.init a c loc scale) = true ↔ (a ≤ 0 ∨ c = 0) := by
  simp only [Gamma2PCont.init]
  split_ifs with h1 h2
  · simp [isErr, h1]
  · simp [isErr, h2]
  · simp [isErr, h1, h2]

/-- C9: after a trigger of event class eE at elapsed day d, the re-armed
next-trigger offset equals d plus a freshly drawn non-negative
interarrival (the Poisson draw in years times 365.25 days), and is
therefore at least d. -/
theorem claim9_rearm_offset (S : Streams) (E : Env) (eE : Fin 6)
    (curTime curElapsDays : ℕ) (s : WGState) :
    (updateTriggeredEvent S E eE curTime curElapsDays s).nextTimes eE =
      (curElapsDays : ℚ) +
        (E.events eE).nextEventDays (S.evRecurDraw eE (s.evRecurCnt eE)) ∧
    0 ≤ (E.events eE).nextEventDays (S.evRecurDraw eE (s.evRecurCnt eE)) ∧
    (curElapsDays : ℚ) ≤
      (updateTriggeredEvent S E eE curTime curElapsDays s).nextTimes eE := by
  have h0 : (0 : ℚ) ≤
      (E.events eE).nextEventDays (S.evRecurDraw eE (s.evRecurCnt eE)) := by
    simp only [ExtremeEvent.nextEventDays]
    positivity
  refine ⟨?_, h0, ?_⟩
  · simp [updateTriggeredEvent]
  · have h1 : (updateTriggeredEvent S E eE curTime curElapsDays s).nextTimes eE
        = (curElapsDays : ℚ) +
          (E.events eE).nextEventDays (S.evRecurDraw eE (s.evRecurCnt eE)) := by
      simp [updateTriggeredEvent]
    rw [h1]
    linarith

/-- C10: setupDistsSamples constructs both standard-normal channel
samplers from the single seed argument, so after any number of
updateTracker calls the two EPSI_2 entries (the Tmax-channel and the
Tmin-channel white-noise innovations) are equal — the channels are never
independent draws. -/
theorem claim10_identical_channels (draw : ℤ → ℕ → Option ℚ) (seed : ℤ)
    (n : ℕ) :
    (iterTracker draw seed n).samp0 = (iterTracker draw seed n).samp1 ∧
    (iterTracker draw seed n).epsi.1 = (iterTracker draw seed n).epsi.2 := by
  induction n with
  | zero => exact ⟨rfl, rfl⟩
  | succ n ih =>
      have hstep : iterTracker draw seed (n + 1) =
          updateTracker draw (iterTracker draw seed n) := by
        simp [iterTracker, Function.iterate_succ_apply']
      rw [hstep]
      simp only [updateTracker, stdNormalRanval1]
      rw [ih.1]
      exact ⟨rfl, rfl⟩

/-- C8: one iteration of the daily loop draws exactly one value from each
of the 12 monthly dry-spell distributions, each of the 12 monthly
wet-spell distributions and each of the 12 monthly depth distributions —
every per-month draw count advances by exactly one and every tracker entry
is refreshed with the next draw of its own stream — with no hypothesis on
the current WeatherState or month. -/
theorem claim8_draw_every_day (S : Streams) (E : Env) (jJ : ℕ) (s : WGState)
    (m : Fin 12) :
    (dayStep S E jJ s).dryCnt m = s.dryCnt m + 1 ∧
    (dayStep S E jJ s).wetCnt m = s.wetCnt m + 1 ∧
    (dayStep S E jJ s).pdCnt m = s.pdCnt m + 1 ∧
    (dayStep S E jJ s).stDrySpell m =
      (E.dryDists m).ranval1 (S.dryDraw m (s.dryCnt m)) ∧
    (dayStep S E jJ s).stWetSpell m =
      (E.wetDists m).ranval1 (S.wetDraw m (s.wetCnt m)) ∧
    (dayStep S E jJ s).stPDepth m =
      (E.pdDists m).ranval1 (S.pdRaw m (s.pdCnt m)) (E.cal jJ)
        MON_MAX_PP WD_THRESH := by
  have hd := dayStep_samples S E jJ s
  have hp := precipStep_samples S E jJ (postSample S E jJ s)
  refine ⟨?_, ?_, ?_, ?_, ?_, ?_⟩
  · rw [congrFun hd.2.2.2.1 m, congrFun hp.2.2.2.1 m]; rfl
  · rw [congrFun hd.2.2.2.2.1 m, congrFun hp.2.2.2.2.1 m]; rfl
  · rw [congrFun hd.2.2.2.2.2 m, congrFun hp.2.2.2.2.2 m]; rfl
  · rw [congrFun hd.1 m, congrFun hp.1 m]; rfl
  · rw [congrFun hd.2.1 m, congrFun hp.2.1 m]; rfl
  · rw [congrFun hd.2.2.1 m, congrFun hp.2.2.1 m]; rfl

/-- C3: on a day whose state at the start of the check is DRY with an
exhausted spell counter, the state toggles to WET, the spell counter is
set to that day's freshly drawn WET spell length for the current month
(then decremented once at the end of the day, like every day), the
recorded precipitation is that day's freshly drawn base depth for the
current month — at least the wet/dry threshold, hence never zero — and no
event-trigger check is performed: all event-tracking state is untouched. -/
theorem claim3_dry_to_wet_transition (S : Streams) (E : Env) (jJ : ℕ)
    (s : WGState) (h1 : s.h0State = .dry) (h2 : s.h0remdur ≤ 0) :
    (dayStep S E jJ s).h0State = .wet ∧
    (dayStep S E jJ s).h0remdur =
      (sampleAll S E (E.cal jJ) s).stWetSpell (E.cal jJ) - 1 ∧
    (dayStep S E jJ s).precips jJ =
      (sampleAll S E (E.cal jJ) s).stPDepth (E.cal jJ) ∧
    WD_THRESH ≤ (dayStep S E jJ s).precips jJ ∧
    (dayStep S E jJ s).precips jJ ≠ 0 ∧
    (dayStep S E jJ s).nextTimes = s.nextTimes ∧
    (dayStep S E jJ s).nextMags = s.nextMags ∧
    (dayStep S E jJ s).evRecurCnt = s.evRecurCnt ∧
    (dayStep S E jJ s).evMagCnt = s.evMagCnt ∧
    (dayStep S E jJ s).evLog = s.evLog ∧
    (dayStep S E jJ s).evTrigTimes = s.evTrigTimes ∧
    (dayStep S E jJ s).evTrigMags = s.evTrigMags := by
  have h1p : (postSample S E jJ s).h0State = .dry := h1
  have h2p : (postSample S E jJ s).h0remdur ≤ 0 := h2
  have heq := precipStep_dry_toggle S E jJ _ h1p h2p
  have hfr := dayStep_evFrame S E jJ s
  have hpr : (dayStep S E jJ s).precips jJ =
      (sampleAll S E (E.cal jJ) s).stPDepth (E.cal jJ) := by
    rw [dayStep_precips S E jJ s, heq]
    simp only [assignWetDep, Function.update_same]
    rfl
  have hth : WD_THRESH ≤ (dayStep S E jJ s).precips jJ := by
    rw [hpr]
    exact ranval1_ge_thresh (E.pdDists (E.cal jJ))
      (S.pdRaw (E.cal jJ) (s.pdCnt (E.cal jJ))) (E.cal jJ) MON_MAX_PP WD_THRESH
  have hthpos : (0 : ℚ) < WD_THRESH := by norm_num [WD_THRESH]
  refine ⟨?_, ?_, hpr, hth, ne_of_gt (lt_of_lt_of_le hthpos hth), ?_, ?_, ?_,
    ?_, ?_, ?_, ?_⟩
  · rw [dayStep_h0State S E jJ s, heq]; rfl
  · rw [dayStep_h0remdur S E jJ s, heq]; rfl
  · rw [hfr.1, heq]; rfl
  · rw [hfr.2.1, heq]; rfl
  · rw [hfr.2.2.1, heq]; rfl
  · rw [hfr.2.2.2.1, heq]; rfl
  · rw [hfr.2.2.2.2.1, heq]; rfl
  · rw [hfr.2.2.2.2.2.1, heq]; rfl
  · rw [hfr.2.2.2.2.2.2, heq]; rfl

/-- C3 witness: a concrete DRY day with an exhausted counter toggles to
WET, records a nonzero depth, and leaves the event state untouched. -/
theorem claim3_witness :
    (dayStep oneStreams testEnv 0 testStateDry).h0State = .wet ∧
    (dayStep oneStreams testEnv 0 testStateDry).precips 0 ≠ 0 ∧
    (dayStep oneStreams testEnv 0 testStateDry).evLog = testStateDry.evLog := by
  refine ⟨(claim3_dry_to_wet_transition oneStreams testEnv 0 testStateDry
    rfl (by norm_num [testStateDry])).1, ?_, ?_⟩
  · exact (claim3_dry_to_wet_transition oneStreams testEnv 0 testStateDry
      rfl (by norm_num [testStateDry])).2.2.2.2.1
  · exact (claim3_dry_to_wet_transition oneStreams testEnv 0 testStateDry
      rfl (by norm_num [testStateDry])).2.2.2.2.2.2.2.2.2.1

/-- C4: for a spell begun by a toggle at day jJ (exhausted counter), with
L the spell length drawn for the new state at that moment (L at least 1,
as every negative-binomial spell draw is nbinom sample plus a location of
1 or 2): the day of the toggle and the following L − 1 days all carry the
new state, and the day after those, day jJ + L, toggles back — the spell
lasts exactly L consecutive days. -/
theorem claim4_spell_length_exact (S : Streams) (E : Env) (jJ : ℕ)
    (s : WGState) (h2 : s.h0remdur ≤ 0) (hL : 1 ≤ drawnLen S E jJ s) :
    (∀ k : ℕ, (k : ℤ) < drawnLen S E jJ s →
      (runSteps S E jJ (k + 1) s).h0State = s.h0State.other) ∧
    (runSteps S E jJ ((drawnLen S E jJ s).toNat + 1) s).h0State =
      s.h0State := by
  obtain ⟨ha, hb⟩ := dayStep_toggle S E jJ s h2
  constructor
  · intro k hk
    rw [runSteps_front]
    have hk2 : (k : ℤ) ≤ (dayStep S E jJ s).h0remdur := by
      rw [hb]; omega
    exact ((stay_run S E k (jJ + 1) (dayStep S E jJ s) hk2).1).trans ha
  · rw [runSteps_front]
    set m := (drawnLen S E jJ s).toNat - 1 with hm
    have hL1 : (drawnLen S E jJ s).toNat = m + 1 := by omega
    rw [hL1, runSteps_succ]
    have hmL : (m : ℤ) ≤ (dayStep S E jJ s).h0remdur := by
      rw [hb]; omega
    obtain ⟨hc, hd⟩ := stay_run S E m (jJ + 1) (dayStep S E jJ s) hmL
    have hrem0 : (runSteps S E (jJ + 1) m (dayStep S E jJ s)).h0remdur ≤ 0 := by
      rw [hd, hb]; omega
    obtain ⟨he, -⟩ := dayStep_toggle S E (jJ + 1 + m) _ hrem0
    rw [he, hc, ha, WeatherState.other_other]

/-- C4 witness: with a drawn WET spell length of exactly 1, the toggle day
is WET and the very next day is DRY again. -/
theorem claim4_witness :
    (runSteps oneStreams testEnv 0 1 testStateDry).h0State = .wet ∧
    (runSteps oneStreams testEnv 0 2 testStateDry).h0State = .dry := by
  have hdl : drawnLen oneStreams testEnv 0 testStateDry = 1 := rfl
  have h := claim4_spell_length_exact oneStreams testEnv 0 testStateDry
    (by norm_num [testStateDry]) (by rw [hdl])
  exact ⟨h.1 0 (by rw [hdl]; norm_num), h.2⟩

/-- C7: on every simulated day the recorded Tmax minus Tmin is at least
the fixed minimum daily delta of 4.0; the recorded Tmin always equals the
unadjusted converted Tmin (never lowered), and whenever the unadjusted
converted pair violates the bound the recorded Tmax is raised to Tmin plus
the delta. -/
theorem claim7_min_daily_delta (S : Streams) (E : Env) (n : ℕ) :
    MIN_DAILY_DELTA ≤
      (runReal S E (n + 1)).tmaxs n - (runReal S E (n + 1)).tmins n ∧
    (runReal S E (n + 1)).tmins n =
      (rawTemps E.cv ((runReal S E (n + 1)).chiM0) (E.doy n)
        ((runReal S E (n + 1)).h0State)).2 ∧
    ((rawTemps E.cv ((runReal S E (n + 1)).chiM0) (E.doy n)
        ((runReal S E (n + 1)).h0State)).1 -
      (rawTemps E.cv ((runReal S E (n + 1)).chiM0) (E.doy n)
        ((runReal S E (n + 1)).h0State)).2 < MIN_DAILY_DELTA →
      (runReal S E (n + 1)).tmaxs n =
        (runReal S E (n + 1)).tmins n + MIN_DAILY_DELTA) := by
  rw [runReal_succ]
  obtain ⟨h1, h2⟩ := dayStep_temp_vals S E n (runReal S E n)
  rw [h1, h2]
  exact calculateUpdate_spec E.cv _ (E.doy n) _

/-- C7 witness: with all-zero climatology curves the unadjusted pair is
(0, 0), which violates the bound, so the recorded Tmax is raised to the
recorded Tmin plus the delta. -/
theorem claim7_witness :
    (runReal cexStreams testEnv 1).tmaxs 0 =
      (runReal cexStreams testEnv 1).tmins 0 + MIN_DAILY_DELTA := by
  refine (claim7_min_daily_delta cexStreams testEnv 0).2.2 ?_
  cases hst : (runReal cexStreams testEnv 1).h0State <;>
    norm_num [rawTemps, testEnv, testCurves, MIN_DAILY_DELTA]

/-- C1 amended: on every simulated day of a realization, if the day's
WeatherState (after any toggle) is DRY the recorded precipitation is
exactly 0; if it is WET, the recorded precipitation is the sum of the
snapshot magnitudes of the event classes triggered that day when the day
is a continuing wet day on which at least one class triggers (the base
depth is not added), and the base depth sampled that day for the current
month otherwise. -/
theorem claim1_daily_precipitation (S : Streams) (E : Env) (n : ℕ) :
    ((runReal S E (n + 1)).h0State = .dry →
      (runReal S E (n + 1)).precips n = 0) ∧
    ((runReal S E (n + 1)).h0State = .wet →
      (runReal S E (n + 1)).precips n =
        if (runReal S E n).h0State = .wet ∧
            ∃ eE : Fin 6, (runReal S E n).evTrigTimes eE < (n : ℚ)
        then trigSum n (runReal S E n)
        else (sampleAll S E (E.cal n) (runReal S E n)).stPDepth (E.cal n)) := by
  rw [runReal_succ]
  exact dayStep_precip_char S E n (runReal S E n)
    (runReal_flags S E n).1 (runReal_flags S E n).2

/-- C1 witness: on the first day of the concrete realization (a continuing
WET day with no event triggered) the recorded precipitation is the base
sampled depth 1. -/
theorem claim1_witness : (runReal cexStreams testEnv 1).precips 0 = 1 := by
  have h1 : runReal cexStreams testEnv 1 =
      dayStep cexStreams testEnv 0 (initState cexStreams testEnv) := rfl
  have hwet : (runReal cexStreams testEnv 1).h0State = .wet := by
    rw [h1]
    norm_num [dayStep, sampleAll, updateTrackerW, precipStep, tempStep,
      rollOverChis, assignDryDep, assignWetDep, assignTemp, initState,
      eventCheckLoop, eventCheck, updateTriggeredEvent, finRange_six,
      cexStreams, testEnv, testGamma, testNB, testEvent, testCurves,
      Gamma2PCont.ranval1, NegBinomial.ranval1, ExtremeEvent.nextEventDays,
      MON_MAX_PP, WD_THRESH, calcCHI0, clampSigma, calculateUpdate, rawTemps,
      updateTracker, setupDistsSamples, stdNormalRanval1, epsSub,
      Function.update, SIGMA_THRESH, MIN_DAILY_DELTA]
  rw [(claim1_daily_precipitation cexStreams testEnv 0).2 hwet]
  have h0 : runReal cexStreams testEnv 0 = initState cexStreams testEnv := rfl
  rw [h0]
  norm_num [trigSum, finRange_six, sampleAll, initState,
    cexStreams, testEnv, testGamma, testNB, testEvent,
    Gamma2PCont.ranval1, NegBinomial.ranval1, ExtremeEvent.nextEventDays,
    MON_MAX_PP, WD_THRESH]

/-- C1 counterexample to the claim as stated: day 1 of the concrete
realization is a WET day on which all six event classes trigger; the sum
of the triggered magnitudes is 60 and the base sampled depth for the month
is 1, yet the recorded precipitation is 60, not the claimed base depth
plus event sum 1 + 60. -/
theorem claim1_counterexample :
    (runReal cexStreams testEnv 2).h0State = .wet ∧
    (runReal cexStreams testEnv 2).precips 1 = 60 ∧
    trigSum 1 (runReal cexStreams testEnv 1) = 60 ∧
    (sampleAll cexStreams testEnv (testEnv.cal 1)
        (runReal cexStreams testEnv 1)).stPDepth (testEnv.cal 1) = 1 ∧
    (60 : ℚ) ≠ 1 + 60 := by
  have h1 : runReal cexStreams testEnv 1 =
      dayStep cexStreams testEnv 0 (initState cexStreams testEnv) := rfl
  have h2 : runReal cexStreams testEnv 2 =
      dayStep cexStreams testEnv 1
        (dayStep cexStreams testEnv 0 (initState cexStreams testEnv)) := rfl
  refine ⟨?_, ?_, ?_, ?_, by norm_num⟩ <;>
    first
      | rw [h2] | rw [h1]
  all_goals
    norm_num [trigSum, dayStep, sampleAll, updateTrackerW,
      precipStep, tempStep, rollOverChis, assignDryDep, assignWetDep,
      assignTemp, initState, eventCheckLoop, eventCheck,
      updateTriggeredEvent, finRange_six, cexStreams, testEnv, testGamma,
      testNB, testEvent, testCurves, Gamma2PCont.ranval1,
      NegBinomial.ranval1, ExtremeEvent.nextEventDays, MON_MAX_PP,
      WD_THRESH, calcCHI0, clampSigma, calculateUpdate, rawTemps,
      updateTracker, setupDistsSamples, stdNormalRanval1, epsSub,
      Function.update, SIGMA_THRESH, MIN_DAILY_DELTA]

end EAAWG
